import Mathlib

/-!
# Verification of the EuropePUSH backend job pipeline

Shallow embedding of the job-lifecycle / transcoding pipeline of the
EuropePUSH backend repository.  The repository holds several near-duplicate
Express backends; `src/index.js` itself contains three variants.  We embed
each variant the claims reference in its own namespace:

* `IndexV1`   — first variant in `src/index.js` (timer-based pipeline,
  `setTimeout` at 600/1800/3000 ms, `dbUpdateState`, `uploadFilePathToStorage`,
  `writeBase64ToFile`, API-key middleware).
* `IndexV2`   — second variant in `src/index.js` (`processJob`,
  `uploadOutputToSupabase`, unguarded `runFfmpeg` call).
* `Part000`   — `src/unnamed/part_000` (blocking `POST /jobs`,
  `crypto.randomUUID()` job ids).
* `Part001`   — `src/unnamed/part_001` (`processJob` with the
  queued → downloading → processing → uploading → completed progression,
  `ffmpegProcess` fallback, its own API-key middleware).
* `Part003`   — `src/unnamed/part_003` (`parseBase64Video`).
* `Part004`   — `src/unnamed/part_004` (`withSingleFlight`,
  `runFfmpegVideoOnly`, `dbSetOutputs`).

JS strings are modelled as Lean `String`; byte buffers as `List Nat`;
fallible operations as `Except`/`Option`; the object-storage bucket as a
function from keys to optional contents; and the per-job sequence of
database writes as explicit lists of records.  For the timer-based
variants the writes are listed in the scheduled timer order
(600 ms, 1800 ms, 3000 ms), each stage finishing before the next timer
fires — the most favourable scheduling for the spec's claims.
-/

/-- JS `String.prototype.trim()`: strip whitespace from both ends. -/
def jsTrim (s : String) : String :=
  String.mk (((s.data.dropWhile Char.isWhitespace).reverse.dropWhile Char.isWhitespace).reverse)

/-- Character class `[a-z0-9]`. -/
def isLowerAlnum (c : Char) : Bool :=
  c.isLower || c.isDigit

/-- Test of the spec pattern `^job_[a-z0-9]+$` on a string. -/
def matchesJobIdPattern (s : String) : Bool :=
  match s.data with
  | 'j' :: 'o' :: 'b' :: '_' :: rest => !rest.isEmpty && rest.all isLowerAlnum
  | _ => false

/-- JS `s.startsWith("data:")` on the character list of `s`. -/
def hasDataPrefix : List Char → Bool
  | 'd' :: 'a' :: 't' :: 'a' :: ':' :: _ => true
  | _ => false

/-- The characters strictly after the first `,`, if any: models
`s.slice(s.indexOf(",") + 1)` guarded by `indexOf(",") !== -1`. -/
def dropThroughComma : List Char → Option (List Char)
  | [] => none
  | ',' :: rest => some rest
  | _ :: rest => dropThroughComma rest

/-- Value of a character in the standard base64 alphabet, `none` for
characters outside it (Node's base64 decoder skips those). -/
def base64CharVal (c : Char) : Option Nat :=
  if 'A' ≤ c ∧ c ≤ 'Z' then some (c.toNat - 'A'.toNat)
  else if 'a' ≤ c ∧ c ≤ 'z' then some (c.toNat - 'a'.toNat + 26)
  else if '0' ≤ c ∧ c ≤ '9' then some (c.toNat - '0'.toNat + 52)
  else if c = '+' then some 62
  else if c = '/' then some 63
  else none

/-- Assemble decoded bytes from the 6-bit values of the valid base64
characters: groups of four values give three bytes, a trailing group of
three gives two bytes, of two gives one byte, and a lone value is dropped
(Node `Buffer.from(s, "base64")` behaviour). -/
def base64Assemble : List Nat → List Nat
  | a :: b :: c :: d :: rest =>
      (a * 4 + b / 16) :: ((b % 16) * 16 + c / 4) :: ((c % 4) * 64 + d) ::
        base64Assemble rest
  | [a, b, c] => [a * 4 + b / 16, (b % 16) * 16 + c / 4]
  | [a, b] => [a * 4 + b / 16]
  | [_] => []
  | [] => []

/-- Model of Node `Buffer.from(s, "base64")`: decode leniently, skipping
characters outside the base64 alphabet (including `=` padding). -/
def bufferFromBase64 (s : List Char) : List Nat :=
  base64Assemble (s.filterMap base64CharVal)

/-- The lowercase hex digit of `n % 16`, as produced by
`Buffer.prototype.toString("hex")` and by `crypto.randomUUID()`:
code points `0`–`9` then `a`–`f`. -/
def hexChar (n : Nat) : Char :=
  if n % 16 < 10 then Char.ofNat ('0'.toNat + n % 16)
  else Char.ofNat ('a'.toNat + (n % 16 - 10))

/-- The character list of `Buffer.prototype.toString("hex")`: two lowercase
hex digits per byte, high nibble first. -/
def bytesHexChars : List Nat → List Char
  | [] => []
  | b :: rest => hexChar (b / 16) :: hexChar b :: bytesHexChars rest

/-- `Buffer.prototype.toString("hex")` over a byte list. -/
def bytesToHex (bytes : List Nat) : String :=
  String.mk (bytesHexChars bytes)

/-- Contents of a media file as the pipeline distinguishes them: the
original download, a full re-encode, or a container remux (stream copy). -/
inductive FileContent where
  | original : FileContent
  | encoded : FileContent
  | remuxed : FileContent
  deriving DecidableEq, Repr

/-- Object-storage bucket contents: each key maps to at most one object. -/
def Storage (Content : Type) : Type := String → Option Content

/-- Empty bucket. -/
def Storage.empty (Content : Type) : Storage Content := fun _ => none

/-- `supabase.storage.from("outputs").upload(key, buf, { upsert: true })`:
writes the object under `key`, overwriting any previous object there. -/
def Storage.upload {Content : Type} (st : Storage Content) (key : String)
    (content : Content) : Storage Content :=
  fun k => if k = key then some content else st k

/-- `supabase.storage.from("outputs").getPublicUrl(key)`: the public URL is
the storage provider's public prefix followed by the key. -/
def publicUrlOf (key : String) : String :=
  "https://supabase.example/storage/v1/object/public/outputs/" ++ key

/-- Rank of a job state inside the spec's forward sequence
`queued → downloading → processing → uploading → completed`;
`none` for `failed` and for anything outside the enum. -/
def stateRank : String → Option Nat
  | "queued" => some 0
  | "downloading" => some 1
  | "processing" => some 2
  | "uploading" => some 3
  | "completed" => some 4
  | _ => none

/-- One persisted transition allowed by the claim: strictly forward within
the sequence, or into `failed` from a non-terminal state; nothing may
follow `failed` (or an unknown state). -/
def forwardStepOk (s1 s2 : String) : Bool :=
  match stateRank s1, stateRank s2 with
  | some r1, some r2 => decide (r1 < r2)
  | some r1, none => s2 == "failed" && decide (r1 < 4)
  | none, _ => false

/-- Whole-trace check of the claim's state machine. -/
def forwardTraceOk : List String → Bool
  | [] => true
  | [_] => true
  | s1 :: s2 :: rest => forwardStepOk s1 s2 && forwardTraceOk (s2 :: rest)

/-- `noWriteAfter t l`: no state write occurs after the first write of `t`. -/
def noWriteAfter (terminal : String) : List String → Bool
  | [] => true
  | s :: rest => if s == terminal then rest.isEmpty else noWriteAfter terminal rest

/-- Order of the externally visible steps of a `POST /jobs` handler:
sending the HTTP response versus running the processing pipeline. -/
inductive HandlerAction where
  | runPipeline : HandlerAction
  | respond : HandlerAction
  deriving DecidableEq, Repr

/-- Body of a job-creation response: `{ job_id, state, progress }`. -/
structure JobResponse where
  job_id : String
  state : String
  progress : Nat
  deriving DecidableEq, Repr

/-!
## `IndexV1` — first variant in `src/index.js`

API-key middleware (lines 35–44), `writeBase64ToFile` (121–132),
`uploadFilePathToStorage` (92–107) and the timer pipeline of
`app.post("/jobs")` (215–296): 600 ms → `processing` 35; 1800 ms →
download / base64 write, `runFfmpeg` with `fs.copyFile` fallback, upload,
`dbSetOutputs`, `processing` 70 (or `failed` 100 on error); 3000 ms →
unconditional `complete` 100.
-/

namespace IndexV1

/-- `const API_KEY = (process.env.API_KEY || "").trim()`. -/
def apiKeyOf (env : Option String) : String :=
  jsTrim (env.getD "")

/-- Whether the middleware lets a `POST /jobs` request through:
`!(!API_KEY || k !== API_KEY)` where `k` is the trimmed `x-api-key`
header (missing header coerced to `""`). -/
def authAllows (apiKey : String) (header : Option String) : Bool :=
  let k := jsTrim (header.getD "")
  !(apiKey == "" || k != apiKey)

/-- Outcome of a `POST /jobs` request: HTTP status, and the id of the job
created by the route handler, if any.  The middleware runs before the
handler, so a 401 means the handler — and `dbCreateJob` — never runs; an
authorised, invalid body gets 400; an authorised valid body creates the
job and answers 201. -/
def handlePostJobs (apiKey : String) (header : Option String)
    (validBody : Bool) (jobId : String) : Nat × Option String :=
  if authAllows apiKey header then
    if validBody then (201, some jobId) else (400, none)
  else (401, none)

/-- `const jobId = "job_" + Math.random().toString(36).slice(2,10)`;
`tail` stands for the sliced base36 fraction digits. -/
def mkJobId (tail : String) : String :=
  "job_" ++ tail

/-- 201 response body `{ job_id: jobId, state: "queued", progress: 0 }`. -/
def postJobsResponse (jobId : String) : JobResponse :=
  { job_id := jobId, state := "queued", progress := 0 }

/-- The handler sends the response (`res.status(201).json(...)`) and only
schedules the pipeline timers afterwards. -/
def postJobsActions : List HandlerAction :=
  [HandlerAction.respond, HandlerAction.runPipeline]

/-- `writeBase64ToFile(b64, outPath)` (lines 121–132): trim, strip a
`data:` prefix up to the first comma (error if a `data:` URL has no
comma), decode, and write the decoded buffer — of any length, including
zero — to the file.  The `.ok` payload is the written file's bytes. -/
def writeBase64ToFile (b64 : String) : Except String (List Nat) :=
  let t := (jsTrim b64).data
  if hasDataPrefix t then
    match dropThroughComma t with
    | none => Except.error "invalid data URL"
    | some rest => Except.ok (bufferFromBase64 rest)
  else Except.ok (bufferFromBase64 t)

/-- `uploadFilePathToStorage` key: `jobs/{jobId}/clip_v1.mp4` — a function
of the job id alone. -/
def uploadKey (jobId : String) : String :=
  "jobs/" ++ jobId ++ "/clip_v1.mp4"

/-- Result of the 1800 ms stage for one job. -/
structure StageRun where
  writes : List (String × Nat)
  outputs : List String
  uploaded : Option FileContent
  deriving DecidableEq, Repr

/-- The 1800 ms stage (lines 251–284): fetch the source (`fetchOk`), run
FFmpeg — on FFmpeg failure fall back to `fs.copyFile(inPath, outPath)` —
upload (`uploadOk`), store outputs and write `processing` 70; any error
in the outer `try` writes `failed` 100 instead. -/
def stage70 (jobId : String) (fetchOk ffmpegOk uploadOk : Bool) : StageRun :=
  if !fetchOk then
    { writes := [("failed", 100)], outputs := [], uploaded := none }
  else
    let outFile := if ffmpegOk then FileContent.encoded else FileContent.original
    if !uploadOk then
      { writes := [("failed", 100)], outputs := [], uploaded := none }
    else
      { writes := [("processing", 70)],
        outputs := [publicUrlOf (uploadKey jobId)],
        uploaded := some outFile }

/-- All `jobs`-row writes for one job in scheduled timer order:
`queued` 0 at creation, `processing` 35 at 600 ms, the 1800 ms stage's
write, and the unconditional `complete` 100 at 3000 ms (lines 286–290). -/
def jobWrites (jobId : String) (fetchOk ffmpegOk uploadOk : Bool) : List (String × Nat) :=
  ("queued", 0) :: ("processing", 35) ::
    ((stage70 jobId fetchOk ffmpegOk uploadOk).writes ++ [("complete", 100)])

end IndexV1

/-!
## `IndexV2` — second variant in `src/index.js`

`insertJobInDb`/`updateJobInDb` patch the `jobs` row; `processJob`
(lines 908–1056) runs download → FFmpeg → upload → TikTok → complete.
The `fetch` call (line 917), the `runFfmpeg` call (line 976) and the `uploadOutputToSupabase` call
(line 986) are not wrapped in any handler inside `processJob`; the only
caller catches the rejected promise and merely logs it (lines 890–892).
-/

namespace IndexV2

/-- The `jobs` row of this variant (`insertJobInDb` fields that the
pipeline later patches). -/
structure JobRecord where
  state : String
  progress : Nat
  output : Option (List String)
  error_message : Option String
  deriving DecidableEq, Repr

/-- A partial update as passed to `updateJobInDb(jobId, patch)`: only the
fields present in the patch are written. -/
structure Patch where
  state : Option String := none
  progress : Option Nat := none
  output : Option (Option (List String)) := none
  error_message : Option (Option String) := none
  deriving DecidableEq, Repr

/-- `supabase.from("jobs").update(patch)`: fields present in the patch
overwrite the row, the rest keep their values. -/
def applyPatch (j : JobRecord) (p : Patch) : JobRecord :=
  { state := p.state.getD j.state,
    progress := p.progress.getD j.progress,
    output := p.output.getD j.output,
    error_message := p.error_message.getD j.error_message }

/-- Sequential application of the patches a pipeline run issued. -/
def applyPatches (j : JobRecord) : List Patch → JobRecord
  | [] => j
  | p :: rest => applyPatches (applyPatch j p) rest

/-- The row `insertJobInDb` creates:
`{ state: "queued", progress: 0, output: null, error_message: null }`. -/
def initialJobRecord : JobRecord :=
  { state := "queued", progress := 0, output := none, error_message := none }

/-- `resp.ok` for the source download: HTTP status in the 2xx range. -/
def resOk (status : Nat) : Bool :=
  200 ≤ status && status < 300

/-- `uploadOutputToSupabase` key:
`jobs/{jobId}/clip_${Date.now()}.mp4` — `now` is the value of
`Date.now()` at the moment of the upload call. -/
def uploadKey (jobId : String) (now : Nat) : String :=
  "jobs/" ++ jobId ++ "/clip_" ++ toString now ++ ".mp4"

/-- `uploadOutputToSupabase(jobId, buffer)` (lines 409–437): upload under
the timestamped key with `upsert: true`; if the storage provider rejects
the write (`accepted = false`), rethrow the error — it is not swallowed. -/
def uploadOutputToSupabase (jobId : String) (now : Nat)
    (st : Storage (List Nat)) (buffer : List Nat) (accepted : Bool) :
    Except String (Storage (List Nat) × String) :=
  if accepted then
    Except.ok (st.upload (uploadKey jobId now) buffer, publicUrlOf (uploadKey jobId now))
  else
    Except.error "supabase upload error"

/-- `processJob(jobId, input)` (lines 908–1056), with TikTok posting off:
the list of `updateJobInDb` patches it issues, and whether it ended by
throwing (`true` = the promise rejected and only the route's logging
`.catch` saw the error).  `fetchResult` is the outcome of
`await fetch(source_video_url)` (line 917): `none` — the fetch itself
rejects (network failure); `some status` — it resolves with that HTTP
status.
* fetch rejects → there is no try/catch in `processJob`: the run throws
  after the single `processing`/10 patch — the job is never marked failed;
* fetch resolves but `!sourceResp.ok` → patch `failed`/100 with
  `error_message`, return;
* FFmpeg fails → `runFfmpeg` rejects with no handler: the run throws after
  the single `processing`/10 patch;
* upload fails → `uploadOutputToSupabase` rethrows with no handler: the
  run throws after the `processing`/60 patch;
* otherwise → patches through to `completed`/100 with the output list and
  `error_message: null`. -/
def processJob (jobId : String) (now : Nat) (fetchResult : Option Nat)
    (ffmpegOk uploadOk : Bool) : List Patch × Bool :=
  let p10 : Patch := { state := some "processing", progress := some 10 }
  match fetchResult with
  | none => ([p10], true)
  | some status =>
    if !resOk status then
      ([p10, { state := some "failed", progress := some 100,
               error_message := some (some ("download_failed: " ++ toString status)) }],
       false)
    else if !ffmpegOk then
      ([p10], true)
    else
      let p40 : Patch := { state := some "processing", progress := some 40 }
      let p60 : Patch := { state := some "processing", progress := some 60 }
      if !uploadOk then
        ([p10, p40, p60], true)
      else
        ([p10, p40, p60,
          { state := some "processing", progress := some 70 },
          { state := some "processing", progress := some 90 },
          { state := some "completed", progress := some 100,
            output := some (some [publicUrlOf (uploadKey jobId now)]),
            error_message := some none }],
         false)

/-- The `jobs` row after the pipeline run settled. -/
def finalJob (jobId : String) (now : Nat) (fetchResult : Option Nat)
    (ffmpegOk uploadOk : Bool) : JobRecord :=
  applyPatches initialJobRecord (processJob jobId now fetchResult ffmpegOk uploadOk).1

end IndexV2

/-!
## `Part000` — `src/unnamed/part_000`

`app.post("/jobs")` (lines 130–177) awaits the whole pipeline — base64
write, FFmpeg, storage upload — before `res.json({ jobId, url })`, and
builds the job id from `crypto.randomUUID()` (line 160), whose canonical
form is 36 characters of lowercase hex with hyphens at positions
8, 13, 18 and 23.
-/

namespace Part000

/-- `const jobId = ` backtick `job_${crypto.randomUUID()}`. -/
def mkJobId (uuid : String) : String :=
  "job_" ++ uuid

/-- Canonical `crypto.randomUUID()` output: 36 characters, `-` at indices
8, 13, 18, 23, lowercase hex elsewhere. -/
def isCanonicalUUID (s : String) : Bool :=
  s.data.length == 36 &&
    (List.range 36).all (fun i =>
      let c := s.data.getD i ' '
      if i = 8 ∨ i = 13 ∨ i = 18 ∨ i = 23 then c == '-'
      else c.isDigit || ('a' ≤ c && c ≤ 'f'))

/-- The handler runs the full pipeline first and responds only at the end
(`res.json({ jobId, url })` is the last statement of the `try` block). -/
def postJobsActions : List HandlerAction :=
  [HandlerAction.runPipeline, HandlerAction.respond]

end Part000

/-!
## `Part001` — `src/unnamed/part_001`

`processJob` (lines 126–140) drives one job:
`downloading` 5 → download → `processing` 25 → `ffmpegProcess` (which
catches FFmpeg errors and returns the input file) → `uploading` 75 →
upload (throws on storage error) → `outputAdd` → `completed` 100;
any throw is caught and writes `failed` 100.  `jobsUpdate` writes only
`{ state, progress }` — never an error message.
-/

namespace Part001

/-- `src/unnamed/part_001` middleware (lines 99–105):
`const key = req.headers["x-api-key"]; if (!key || key !== API_KEY) 401`.
A missing header or an empty-string header is falsy and rejected. -/
def authAllows (apiKey : String) (header : Option String) : Bool :=
  match header with
  | none => false
  | some k => !(k == "") && k == apiKey

/-- `const jobId = ` backtick `job_${crypto.randomBytes(8).toString("hex")}`. -/
def mkJobId (bytes : List Nat) : String :=
  "job_" ++ bytesToHex bytes

/-- Response body of `POST /jobs` (line 119):
`{ job_id: jobId, state: "queued", progress: 0 }`. -/
def postJobsResponse (jobId : String) : JobResponse :=
  { job_id := jobId, state := "queued", progress := 0 }

/-- `res.json(...)` is sent before `processJob(jobId, source_video_url)`
is invoked (lines 119–120), so the response does not wait on the
pipeline. -/
def postJobsActions : List HandlerAction :=
  [HandlerAction.respond, HandlerAction.runPipeline]

/-- `ffmpegProcess(inFile)` (lines 48–75): on success return the encoded
output file, on any FFmpeg error return `inFile` itself. -/
def ffmpegProcess (ffmpegOk : Bool) (inFile : FileContent) : FileContent :=
  if ffmpegOk then FileContent.encoded else inFile

/-- `uploadFileToOutputs` key:
`jobs/{jobId}/clip_${Date.now()}.mp4`. -/
def uploadKey (jobId : String) (now : Nat) : String :=
  "jobs/" ++ jobId ++ "/clip_" ++ toString now ++ ".mp4"

/-- One `processJob` run: the `jobsUpdate` calls it makes in order, the
urls handed to `outputAdd`, and the object content stored by the upload. -/
structure JobRun where
  updates : List (String × Nat)
  outputs : List String
  uploaded : Option FileContent
  deriving DecidableEq, Repr

/-- `processJob(jobId, url)` (lines 126–140).  `downloadOk` — the source
fetch succeeds; `ffmpegOk` — the FFmpeg subprocess exits 0; `uploadOk` —
the storage upload is accepted.  A download or upload failure throws into
the `catch`, which writes `failed` 100 and ends the run. -/
def processJob (jobId : String) (now : Nat)
    (downloadOk ffmpegOk uploadOk : Bool) : JobRun :=
  let u1 := [("downloading", 5)]
  if !downloadOk then
    { updates := u1 ++ [("failed", 100)], outputs := [], uploaded := none }
  else
    let inFile := FileContent.original
    let u2 := u1 ++ [("processing", 25)]
    let outFile := ffmpegProcess ffmpegOk inFile
    let u3 := u2 ++ [("uploading", 75)]
    if !uploadOk then
      { updates := u3 ++ [("failed", 100)], outputs := [], uploaded := none }
    else
      { updates := u3 ++ [("completed", 100)],
        outputs := [publicUrlOf (uploadKey jobId now)],
        uploaded := some outFile }

/-- The job's persisted state sequence: the `queued` insert at creation
followed by the states `processJob` writes. -/
def jobStateTrace (jobId : String) (now : Nat)
    (downloadOk ffmpegOk uploadOk : Bool) : List String :=
  "queued" :: ((processJob jobId now downloadOk ffmpegOk uploadOk).updates.map Prod.fst)

/-- The `jobs` row of this variant.  `jobsInsert` creates it as `queued`/0;
`jobsUpdate(jobId, state, progress)` overwrites state and progress only —
no column for an error message is ever written by this variant. -/
structure JobRow where
  state : String
  progress : Nat
  error_message : Option String
  deriving DecidableEq, Repr

/-- Apply the `jobsUpdate` calls of a run to the row in order. -/
def applyUpdates (row : JobRow) : List (String × Nat) → JobRow
  | [] => row
  | (s, p) :: rest => applyUpdates { row with state := s, progress := p } rest

/-- Row created by `jobsInsert(jobId, "queued", 0, input)`. -/
def initialRow : JobRow :=
  { state := "queued", progress := 0, error_message := none }

/-- The `jobs` row after a `processJob` run settled. -/
def finalRow (jobId : String) (now : Nat)
    (downloadOk ffmpegOk uploadOk : Bool) : JobRow :=
  applyUpdates initialRow (processJob jobId now downloadOk ffmpegOk uploadOk).updates

end Part001

/-!
## `Part003` — `src/unnamed/part_003`

`parseBase64Video(input)` (lines 129–145): reject a non-string or empty
input, trim, strip a `data:` prefix up to the first comma (`null` if a
`data:` URL has no comma), decode, and return the buffer only when it is
non-empty.
-/

namespace Part003

/-- `parseBase64Video(input)`.  The caller (line 291) turns a `null`
result into `throw new Error("invalid base64 input for video")`. -/
def parseBase64Video (input : String) : Option (List Nat) :=
  if input == "" then none
  else
    let t := (jsTrim input).data
    let stripped : Option (List Char) :=
      if hasDataPrefix t then dropThroughComma t else some t
    match stripped with
    | none => none
    | some rest =>
        let buf := bufferFromBase64 rest
        if buf.length > 0 then some buf else none

end Part003

/-!
## `Part004` — `src/unnamed/part_004`

`withSingleFlight` (lines 128–134) is a process-wide mutex:

```js
let processingLock = false;
async function withSingleFlight(fn) {
  while (processingLock) { await new Promise(r => setTimeout(r, 400)); }
  processingLock = true;
  try { return await fn(); }
  finally { processingLock = false; }
}
```

Each guarded stage is modelled as a task that (a) polls until the lock is
free — the wake-up from the sleep re-checks the lock and, finding it
free, sets it in the same synchronous continuation, so test-and-set is
one atomic step of the event loop; (b) runs `fn` for `dur` scheduler
steps; (c) settles, resolving or throwing, upon which the `finally`
clears the lock in the same step.  The scheduler may interleave any
number of tasks in any order.

`runFfmpegVideoOnly` (lines 153–202) re-encodes; if the encode subprocess
fails or times out it falls back to a container remux (`-c copy`).
`dbSetOutputs` (lines 64–69) replaces the `job_outputs` rows of a job.
-/

namespace Part004

/-- Where a guarded task stands: still polling for the lock, running `fn`
with `k` steps left, or settled (`true` = resolved, `false` = threw). -/
inductive Phase where
  | waiting : Phase
  | running : Nat → Phase
  | finished : Bool → Phase
  deriving DecidableEq, Repr

/-- One invocation of `withSingleFlight(fn)`: its phase, how many steps
its `fn` takes, and whether its `fn` resolves (else it throws). -/
structure SFTask where
  phase : Phase
  dur : Nat
  resolves : Bool
  deriving DecidableEq, Repr

/-- The process state: the shared `processingLock` and the tasks. -/
structure SFSys where
  lock : Bool
  tasks : List SFTask
  deriving DecidableEq, Repr

/-- Whether a phase is inside `fn` (between `processingLock = true` and
the `finally`). -/
def phaseRunning : Phase → Bool
  | Phase.running _ => true
  | _ => false

/-- Whether a phase is settled. -/
def phaseFinished : Phase → Bool
  | Phase.finished _ => true
  | _ => false

/-- One scheduler step giving task `i` the event loop:
* `waiting` with the lock held — the `while` re-sleeps, nothing changes;
* `waiting` with the lock free — exit the loop and set
  `processingLock = true`, entering `fn` (one synchronous continuation);
* `running (k+1)` — `fn` makes progress;
* `running 0` — `fn` settles (resolves or throws) and the `finally` sets
  `processingLock = false` in the same continuation;
* `finished` — nothing to do. -/
def step (s : SFSys) (i : Nat) : SFSys :=
  match s.tasks.get? i with
  | none => s
  | some t =>
    match t.phase with
    | Phase.waiting =>
        if s.lock then s
        else { lock := true, tasks := s.tasks.set i { t with phase := Phase.running t.dur } }
    | Phase.running (k + 1) =>
        { lock := s.lock, tasks := s.tasks.set i { t with phase := Phase.running k } }
    | Phase.running 0 =>
        { lock := false, tasks := s.tasks.set i { t with phase := Phase.finished t.resolves } }
    | Phase.finished _ => s

/-- How many tasks are currently inside their `fn`. -/
def countRunning (s : SFSys) : Nat :=
  (s.tasks.filter (fun t => phaseRunning t.phase)).length

/-- Fresh system: lock free, every task (given as duration × resolves)
still waiting. -/
def initSys (ts : List (Nat × Bool)) : SFSys :=
  { lock := false, tasks := ts.map (fun p => ⟨Phase.waiting, p.1, p.2⟩) }

/-- States the scheduler can reach from the fresh system for `ts`. -/
inductive Reachable (ts : List (Nat × Bool)) : SFSys → Prop where
  | init : Reachable ts (initSys ts)
  | next : ∀ {s : SFSys} (i : Nat), Reachable ts s → Reachable ts (step s i)

/-- Run a schedule (list of task indices) from the fresh system. -/
def runSchedule (ts : List (Nat × Bool)) (sched : List Nat) : SFSys :=
  sched.foldl step (initSys ts)

/-- Two guarded stages: the first job's `fn` throws after 1 step, the
second job's `fn` resolves after 2 steps. -/
def demoTasks : List (Nat × Bool) := [(1, false), (2, true)]

/-- A fair round-robin schedule long enough to drain `demoTasks`. -/
def demoSchedule : List Nat := [0, 1, 0, 1, 0, 1, 0, 1, 0, 1, 0, 1, 0, 1]

/-- `runFfmpegVideoOnly(inPath, outPath, seed, light)` (lines 153–202):
encode with libx264; if the encode subprocess exits non-zero, errors or
hits its 300 s timeout, fall back to a container remux
(`-c copy`, 120 s timeout).  Only a failure of the remux itself still
throws. -/
def runFfmpegVideoOnly (encodeOk remuxOk : Bool) : Except String FileContent :=
  if encodeOk then Except.ok FileContent.encoded
  else if remuxOk then Except.ok FileContent.remuxed
  else Except.error "remux failed"

/-- One row of the `job_outputs` table. -/
structure OutputRow where
  job_id : String
  idx : Nat
  url : String
  caption : Option String
  hashtags : Option (List String)
  deriving DecidableEq, Repr

/-- One element of the `outputs` argument (`{url, caption, hashtags}`,
absent fields coerced to `null` by `|| null`). -/
structure OutSpec where
  url : String
  caption : Option String
  hashtags : Option (List String)
  deriving DecidableEq, Repr

/-- `outputs.map((o,i)=>({ job_id, idx:i+1, ... }))`, with `start` the idx
of the first produced row (the source starts at `i+1 = 1`). -/
def numberRows (job_id : String) (start : Nat) : List OutSpec → List OutputRow
  | [] => []
  | o :: rest =>
      ⟨job_id, start, o.url, o.caption, o.hashtags⟩ :: numberRows job_id (start + 1) rest

/-- `dbSetOutputs(job_id, outputs)` acting on the `job_outputs` table
(a list of rows in insertion order): `delete().eq("job_id", job_id)`
removes every row of the job, then `insert(rows)` appends the freshly
numbered rows. -/
def dbSetOutputs (table : List OutputRow) (job_id : String)
    (outputs : List OutSpec) : List OutputRow :=
  table.filter (fun r => r.job_id != job_id) ++ numberRows job_id 1 outputs

/-- The rows the table stores for a given job id, in table order. -/
def rowsFor (table : List OutputRow) (job_id : String) : List OutputRow :=
  table.filter (fun r => r.job_id == job_id)

end Part004

/-!
## Helper lemmas
-/

theorem string_append_mk_data (l : List Char) :
    ("job_" ++ String.mk l).data = 'j' :: 'o' :: 'b' :: '_' :: l := rfl

theorem matchesJobIdPattern_append (tail : String) :
    matchesJobIdPattern ("job_" ++ tail)
      = (!tail.data.isEmpty && tail.data.all isLowerAlnum) := by
  cases tail with
  | mk l => rfl

theorem isLowerAlnum_hexChar (n : Nat) : isLowerAlnum (hexChar n) = true := by
  unfold hexChar
  have h : n % 16 < 16 := Nat.mod_lt _ (by norm_num)
  generalize hm : n % 16 = m at h ⊢
  interval_cases m <;> rfl

theorem bytesHexChars_all_isLowerAlnum (bytes : List Nat) :
    (bytesHexChars bytes).all isLowerAlnum = true := by
  induction bytes with
  | nil => rfl
  | cons b rest ih =>
      simp [bytesHexChars, List.all_cons, isLowerAlnum_hexChar, ih]

theorem bytesHexChars_isEmpty (bytes : List Nat) (h : bytes ≠ []) :
    (bytesHexChars bytes).isEmpty = false := by
  cases bytes with
  | nil => exact absurd rfl h
  | cons b rest => rfl

namespace Part004

theorem numberRows_all_job (job_id : String) (outputs : List OutSpec) :
    ∀ start, (numberRows job_id start outputs).all (fun r => r.job_id == job_id) = true := by
  induction outputs with
  | nil => intro start; rfl
  | cons o rest ih =>
      intro start
      simp only [numberRows, List.all_cons, ih (start + 1), Bool.and_true]
      simp

theorem rowsFor_dbSetOutputs (table : List OutputRow) (job_id : String)
    (outputs : List OutSpec) :
    rowsFor (dbSetOutputs table job_id outputs) job_id = numberRows job_id 1 outputs := by
  unfold rowsFor dbSetOutputs
  rw [List.filter_append]
  have h1 : (table.filter (fun r => r.job_id != job_id)).filter
      (fun r => r.job_id == job_id) = [] := by
    rw [List.filter_filter, List.filter_eq_nil_iff]
    intro r _
    by_cases h : r.job_id = job_id <;> simp [h]
  have h2 : (numberRows job_id 1 outputs).filter (fun r => r.job_id == job_id) =
      numberRows job_id 1 outputs := by
    rw [List.filter_eq_self]
    intro r hr
    have := numberRows_all_job job_id outputs 1
    rw [List.all_eq_true] at this
    exact this r hr
  rw [h1, h2, List.nil_append]

theorem filter_ne_dbSetOutputs (table : List OutputRow) (job_id : String)
    (outputs : List OutSpec) :
    (dbSetOutputs table job_id outputs).filter (fun r => r.job_id != job_id) =
      table.filter (fun r => r.job_id != job_id) := by
  unfold dbSetOutputs
  rw [List.filter_append, List.filter_filter]
  have h2 : (numberRows job_id 1 outputs).filter (fun r => r.job_id != job_id) = [] := by
    rw [List.filter_eq_nil_iff]
    intro r hr
    have := numberRows_all_job job_id outputs 1
    rw [List.all_eq_true] at this
    have hr2 := this r hr
    simp only [beq_iff_eq] at hr2
    simp [hr2]
  rw [h2, List.append_nil]
  congr 1
  funext r
  by_cases h : r.job_id = job_id <;> simp [h]

theorem numberRows_idx (job_id : String) (outputs : List OutSpec) :
    ∀ start, (numberRows job_id start outputs).map OutputRow.idx =
      List.range' start outputs.length := by
  induction outputs with
  | nil => intro start; rfl
  | cons o rest ih =>
      intro start
      simp only [numberRows, List.map_cons, ih (start + 1), List.length_cons,
        List.range'_succ]

end Part004


namespace Part004

theorem length_filter_set {α : Type} (p : α → Bool) (l : List α) :
    ∀ (i : Nat) (t t2 : α), l.get? i = some t →
      ((l.set i t2).filter p).length + (if p t then 1 else 0)
        = (l.filter p).length + (if p t2 then 1 else 0) := by
  induction l with
  | nil => intro i t t2 h; cases h
  | cons a l ih =>
      intro i t t2 h
      cases i with
      | zero =>
          have ha : a = t := by injection h
          subst ha
          show ((t2 :: l).filter p).length + (if p a then 1 else 0)
              = ((a :: l).filter p).length + (if p t2 then 1 else 0)
          by_cases hpa : p a <;> by_cases hpt : p t2 <;>
            simp [List.filter_cons, hpa, hpt]
      | succ i =>
          have hrec := ih i t t2 (by simpa using h)
          show ((a :: l.set i t2).filter p).length + (if p t then 1 else 0)
              = ((a :: l).filter p).length + (if p t2 then 1 else 0)
          by_cases hpa : p a <;> simp [List.filter_cons, hpa] <;> omega

theorem countRunning_initSys (ts : List (Nat × Bool)) :
    countRunning (initSys ts) = 0 := by
  unfold countRunning initSys
  induction ts with
  | nil => rfl
  | cons p ts ih => simpa [List.filter, phaseRunning] using ih

theorem countRunning_pos_of_running (s : SFSys) (i : Nat) (t : SFTask)
    (hg : s.tasks.get? i = some t) (hr : phaseRunning t.phase = true) :
    0 < countRunning s := by
  have hmem : t ∈ s.tasks := List.get?_mem hg
  have hmf : t ∈ s.tasks.filter (fun x => phaseRunning x.phase) :=
    List.mem_filter.mpr ⟨hmem, hr⟩
  exact List.length_pos.mpr (List.ne_nil_of_mem hmf)

theorem step_inv (s : SFSys) (i : Nat)
    (h1 : countRunning s ≤ 1) (h2 : s.lock = true ↔ countRunning s = 1) :
    countRunning (step s i) ≤ 1
      ∧ ((step s i).lock = true ↔ countRunning (step s i) = 1) := by
  cases hg : s.tasks.get? i with
  | none =>
      have hstep : step s i = s := by unfold step; rw [hg]
      rw [hstep]; exact ⟨h1, h2⟩
  | some t =>
    cases hp : t.phase with
    | waiting =>
        have hstep : step s i = if s.lock then s
            else { lock := true, tasks := s.tasks.set i { t with phase := Phase.running t.dur } } := by
          unfold step; rw [hg]; dsimp only; rw [hp]
        by_cases hl : s.lock = true
        · rw [hstep, if_pos hl]; exact ⟨h1, h2⟩
        · have hc1 : countRunning s ≠ 1 := fun hc => hl (h2.mpr hc)
          have hset := length_filter_set (fun x => phaseRunning x.phase) s.tasks i t
            { t with phase := Phase.running t.dur } hg
          dsimp only at hset
          rw [hp] at hset
          rw [show phaseRunning Phase.waiting = false from rfl,
            show phaseRunning (Phase.running t.dur) = true from rfl] at hset
          norm_num at hset
          rw [hstep, if_neg hl]
          unfold countRunning at h1 hc1 ⊢
          dsimp only at h1 hc1 ⊢
          refine ⟨by omega, ?_⟩
          constructor
          · intro _; omega
          · intro _; rfl
    | running k =>
        cases k with
        | zero =>
            have hstep : step s i =
                { lock := false, tasks := s.tasks.set i { t with phase := Phase.finished t.resolves } } := by
              unfold step; rw [hg]; dsimp only; rw [hp]
            have hpos := countRunning_pos_of_running s i t hg (by rw [hp]; rfl)
            have hset := length_filter_set (fun x => phaseRunning x.phase) s.tasks i t
              { t with phase := Phase.finished t.resolves } hg
            dsimp only at hset
            rw [hp] at hset
            rw [show phaseRunning (Phase.running 0) = true from rfl,
              show phaseRunning (Phase.finished t.resolves) = false from rfl] at hset
            norm_num at hset
            rw [hstep]
            unfold countRunning at h1 hpos ⊢
            dsimp only at h1 hpos ⊢
            refine ⟨by omega, ?_⟩
            constructor
            · intro hfalse; simp at hfalse
            · intro hlen; exfalso; omega
        | succ k =>
            have hstep : step s i =
                { lock := s.lock, tasks := s.tasks.set i { t with phase := Phase.running k } } := by
              unfold step; rw [hg]; dsimp only; rw [hp]
            have hset := length_filter_set (fun x => phaseRunning x.phase) s.tasks i t
              { t with phase := Phase.running k } hg
            dsimp only at hset
            rw [hp] at hset
            rw [show phaseRunning (Phase.running (k + 1)) = true from rfl,
              show phaseRunning (Phase.running k) = true from rfl] at hset
            norm_num at hset
            rw [hstep]
            unfold countRunning at h1 h2 ⊢
            dsimp only at h1 h2 ⊢
            refine ⟨by omega, ?_⟩
            constructor
            · intro hl; have := h2.mp hl; omega
            · intro hlen; exact h2.mpr (by omega)
    | finished b =>
        have hstep : step s i = s := by unfold step; rw [hg]; dsimp only; rw [hp]
        rw [hstep]; exact ⟨h1, h2⟩

theorem reachable_inv (ts : List (Nat × Bool)) (s : SFSys) (h : Reachable ts s) :
    countRunning s ≤ 1 ∧ (s.lock = true ↔ countRunning s = 1) := by
  induction h with
  | init =>
      refine ⟨by rw [countRunning_initSys]; omega, ?_⟩
      rw [countRunning_initSys]
      unfold initSys
      simp
  | next i hr ih => exact step_inv _ i ih.1 ih.2

end Part004

/-!
## Claims
-/

/-- C1 counterexample.  In the timer-based `src/index.js` variant, when the
1800 ms stage fails (here: the source download fails) the persisted write
sequence is `queued` 0, `processing` 35, `failed` 100, `complete` 100: the
unconditional 3000 ms completion timer (lines 286–290) writes another state
after `failed`, so `failed` is not absorbing and the trace violates the
claimed state machine. -/
theorem c1_counterexample :
    IndexV1.jobWrites "job_x" false true true
        = [("queued", 0), ("processing", 35), ("failed", 100), ("complete", 100)]
      ∧ noWriteAfter "failed" ((IndexV1.jobWrites "job_x" false true true).map Prod.fst) = false
      ∧ forwardTraceOk ((IndexV1.jobWrites "job_x" false true true).map Prod.fst) = false := by
  exact ⟨rfl, rfl, rfl⟩

/-- C1 (amended).  In the `processJob` variant of `src/unnamed/part_001`,
for every job and every combination of stage outcomes the persisted state
sequence moves strictly forward through
`queued → downloading → processing → uploading → completed` with `failed`
reachable only from a non-terminal state, and no state is ever written
after `failed`.  (The timer-based variants violate this: see the
counterexample.) -/
theorem c1_forward_states :
    ∀ (jobId : String) (now : Nat) (downloadOk ffmpegOk uploadOk : Bool),
      forwardTraceOk (Part001.jobStateTrace jobId now downloadOk ffmpegOk uploadOk) = true
      ∧ noWriteAfter "failed"
          (Part001.jobStateTrace jobId now downloadOk ffmpegOk uploadOk) = true := by
  intro jobId now downloadOk ffmpegOk uploadOk
  cases downloadOk <;> cases ffmpegOk <;> cases uploadOk <;> exact ⟨rfl, rfl⟩

/-- C2 counterexample.  In the `processJob` variant of `src/index.js`, the
`runFfmpeg` call (line 976) has no handler: with a good download (HTTP 200)
and a failing transcoder the pipeline run throws, and the persisted job is
left at `processing` 10 with no output — it neither falls back nor reaches
`completed`, and its output is empty. -/
theorem c2_counterexample :
    (IndexV2.processJob "job_a" 0 (some 200) false true).2 = true
      ∧ IndexV2.finalJob "job_a" 0 (some 200) false true
          = { state := "processing", progress := 10, output := none, error_message := none }
      ∧ (IndexV2.finalJob "job_a" 0 (some 200) false true).state ≠ "completed"
      ∧ (IndexV2.finalJob "job_a" 0 (some 200) false true).output = none := by
  refine ⟨rfl, rfl, by decide, rfl⟩

/-- C2 (amended).  In the variants with a fallback, a transcoder failure is
not propagated and the job still completes with a non-empty output: in
`src/unnamed/part_001`, `ffmpegProcess` falls back to the original input
file and `processJob` ends at `completed` 100 with one output; in the
timer-based `src/index.js` variant the 1800 ms stage copies the original
file (`fs.copyFile`), uploads it, and the job still reaches its terminal
write; and `runFfmpegVideoOnly` of `src/unnamed/part_004` falls back to a
container remux.  (The `processJob` variant of `src/index.js` instead
leaves the job stuck: see the counterexample.) -/
theorem c2_transcode_fallback :
    (∀ (jobId : String) (now : Nat),
        (Part001.processJob jobId now true false true).uploaded = some FileContent.original
        ∧ (Part001.processJob jobId now true false true).updates.getLast? = some ("completed", 100)
        ∧ (Part001.processJob jobId now true false true).outputs ≠ [])
    ∧ (∀ jobId : String,
        (IndexV1.stage70 jobId true false true).uploaded = some FileContent.original
        ∧ (IndexV1.stage70 jobId true false true).writes = [("processing", 70)]
        ∧ (IndexV1.stage70 jobId true false true).outputs ≠ []
        ∧ (IndexV1.jobWrites jobId true false true).getLast? = some ("complete", 100))
    ∧ Part004.runFfmpegVideoOnly false true = Except.ok FileContent.remuxed := by
  refine ⟨fun jobId now => ⟨rfl, rfl, ?_⟩, fun jobId => ⟨rfl, rfl, ?_, rfl⟩, rfl⟩
  · simp [Part001.processJob]
  · simp [IndexV1.stage70]

/-- C3 counterexample.  Two refutations of the claim.  In
`src/unnamed/part_001`, a failed source download does drive the job to
`failed` (progress 100) with empty output, but `jobsUpdate` writes only
`state` and `progress`: the job's `error_message` stays null, not the
claimed non-null message.  And in the `processJob` variant of
`src/index.js`, a download that fails as a network failure — the `fetch`
at line 917 rejects instead of resolving — finds no try/catch in
`processJob`: the job never reaches `failed` at all, ending stuck at
`processing` 10 with null `error_message` and empty output. -/
theorem c3_counterexample :
    Part001.finalRow "job_a" 0 false true true
        = { state := "failed", progress := 100, error_message := none }
      ∧ (Part001.finalRow "job_a" 0 false true true).error_message = none
      ∧ (Part001.processJob "job_a" 0 false true true).outputs = []
      ∧ (IndexV2.processJob "job_a" 0 none true true).2 = true
      ∧ IndexV2.finalJob "job_a" 0 none true true
          = { state := "processing", progress := 10, output := none, error_message := none }
      ∧ (IndexV2.finalJob "job_a" 0 none true true).state ≠ "failed" := by
  refine ⟨rfl, rfl, rfl, rfl, rfl, by decide⟩

/-- C3 (amended).  In `src/unnamed/part_001` — where both failure modes of
the download (network failure and non-success HTTP status) throw into the
pipeline's catch — the job reaches `failed` (100) with empty output but a
null `error_message`.  In the `src/index.js` `processJob` variant only a
resolved response with a non-success HTTP status drives the job to
`failed` (100) with a non-null `error_message` and empty output
(lines 917–927); a network failure (the fetch rejects) propagates
unhandled and leaves the job stuck at `processing` 10, never `failed`. -/
theorem c3_download_failure :
    (∀ (jobId : String) (now status : Nat) (ffmpegOk uploadOk : Bool),
        IndexV2.resOk status = false →
          IndexV2.finalJob jobId now (some status) ffmpegOk uploadOk
            = { state := "failed", progress := 100, output := none,
                error_message := some ("download_failed: " ++ toString status) })
    ∧ (∀ (jobId : String) (now : Nat) (ffmpegOk uploadOk : Bool),
        (IndexV2.processJob jobId now none ffmpegOk uploadOk).2 = true
        ∧ IndexV2.finalJob jobId now none ffmpegOk uploadOk
            = { state := "processing", progress := 10, output := none,
                error_message := none })
    ∧ (∀ (jobId : String) (now : Nat) (ffmpegOk uploadOk : Bool),
        (Part001.finalRow jobId now false ffmpegOk uploadOk).state = "failed"
        ∧ (Part001.finalRow jobId now false ffmpegOk uploadOk).progress = 100
        ∧ (Part001.processJob jobId now false ffmpegOk uploadOk).outputs = []) := by
  refine ⟨?_, ?_, ?_⟩
  · intro jobId now status ffmpegOk uploadOk h
    unfold IndexV2.finalJob IndexV2.processJob
    dsimp only
    rw [h]
    simp [IndexV2.applyPatches, IndexV2.applyPatch, IndexV2.initialJobRecord]
  · intro jobId now ffmpegOk uploadOk
    exact ⟨rfl, rfl⟩
  · intro jobId now ffmpegOk uploadOk
    exact ⟨rfl, rfl, rfl⟩

/-- C3 witness: a concrete download failure (HTTP 404) in the
`src/index.js` `processJob` variant. -/
theorem c3_witness :
    IndexV2.finalJob "job_a" 0 (some 404) true true
      = { state := "failed", progress := 100, output := none,
          error_message := some ("download_failed: " ++ toString 404) } :=
  c3_download_failure.1 "job_a" 0 404 true true (by decide)

/-- C4 counterexample.  In the `processJob` variant of `src/index.js`, the
upload step (line 986) has no handler: when the storage provider rejects
the write the run throws and the persisted job stays at `processing` 60 —
a non-terminal state, not `failed`, contradicting the claim that a
rejected upload drives the job to `failed`. -/
theorem c4_counterexample :
    IndexV2.finalJob "job_a" 0 (some 200) true false
        = { state := "processing", progress := 60, output := none, error_message := none }
      ∧ (IndexV2.finalJob "job_a" 0 (some 200) true false).state ≠ "failed"
      ∧ (IndexV2.processJob "job_a" 0 (some 200) true false).2 = true := by
  refine ⟨rfl, by decide, rfl⟩

/-- C4 (amended).  The upload helper itself never swallows a storage
error — `uploadOutputToSupabase` rethrows it — and in the
`src/unnamed/part_001` variant the pipeline's catch then marks the job
`failed` 100.  In the `src/index.js` `processJob` variant, however, the
propagated error escapes `processJob` unhandled and the job is left in
the non-terminal `processing` state (see the counterexample). -/
theorem c4_upload_failure :
    (∀ (jobId : String) (now : Nat) (st : Storage (List Nat)) (buffer : List Nat),
        IndexV2.uploadOutputToSupabase jobId now st buffer false
          = Except.error "supabase upload error")
    ∧ (∀ (jobId : String) (now : Nat) (ffmpegOk : Bool),
        (Part001.processJob jobId now true ffmpegOk false).updates.getLast?
            = some ("failed", 100)
        ∧ (Part001.finalRow jobId now true ffmpegOk false).state = "failed") := by
  exact ⟨fun _ _ _ _ => rfl, fun jobId now ffmpegOk => ⟨rfl, rfl⟩⟩

/-- C5 counterexample.  In `src/unnamed/part_000`, the job id is
`job_` + `crypto.randomUUID()`: for a canonical UUID (hyphens at positions
8, 13, 18, 23) the id does not match `^job_[a-z0-9]+$`; moreover that
handler awaits the whole pipeline (base64 write, FFmpeg, upload) before
responding, so the response does block on pipeline completion. -/
theorem c5_counterexample :
    Part000.isCanonicalUUID "123e4567-e89b-12d3-a456-426614174000" = true
      ∧ matchesJobIdPattern
          (Part000.mkJobId "123e4567-e89b-12d3-a456-426614174000") = false
      ∧ Part000.postJobsActions = [HandlerAction.runPipeline, HandlerAction.respond] := by
  exact ⟨by decide, by decide, rfl⟩

/-- C5 (amended).  In the non-blocking variants the claim holds: the
`src/unnamed/part_001` handler and the timer-based `src/index.js` handler
respond before the pipeline runs, with body
`{ job_id, state: "queued", progress: 0 }`, and their generated ids —
`job_` + 8 random bytes as lowercase hex, and `job_` + a non-empty base36
fraction slice — match `^job_[a-z0-9]+$`.  The `src/unnamed/part_000`
variant violates both the pattern (UUID hyphens) and the non-blocking
behaviour (see the counterexample). -/
theorem c5_job_submission :
    (∀ bytes : List Nat, bytes ≠ [] →
        matchesJobIdPattern (Part001.mkJobId bytes) = true)
    ∧ (∀ tail : String, tail.data ≠ [] → tail.data.all isLowerAlnum = true →
        matchesJobIdPattern (IndexV1.mkJobId tail) = true)
    ∧ IndexV1.postJobsActions = [HandlerAction.respond, HandlerAction.runPipeline]
    ∧ Part001.postJobsActions = [HandlerAction.respond, HandlerAction.runPipeline]
    ∧ (∀ jobId : String, IndexV1.postJobsResponse jobId
        = { job_id := jobId, state := "queued", progress := 0 })
    ∧ (∀ jobId : String, Part001.postJobsResponse jobId
        = { job_id := jobId, state := "queued", progress := 0 }) := by
  refine ⟨?_, ?_, rfl, rfl, fun _ => rfl, fun _ => rfl⟩
  · intro bytes h
    unfold Part001.mkJobId bytesToHex
    rw [matchesJobIdPattern_append]
    rw [show (String.mk (bytesHexChars bytes)).data = bytesHexChars bytes from rfl]
    rw [bytesHexChars_isEmpty bytes h, bytesHexChars_all_isLowerAlnum]
    rfl
  · intro tail hne hall
    unfold IndexV1.mkJobId
    rw [matchesJobIdPattern_append, hall]
    have hie : tail.data.isEmpty = false := by
      cases htd : tail.data with
      | nil => exact absurd htd hne
      | cons a l => rfl
    rw [hie]
    rfl

/-- C5 witness: concrete ids from both generators match the pattern. -/
theorem c5_witness :
    matchesJobIdPattern (Part001.mkJobId [171, 205, 239, 1, 2, 3, 4, 5]) = true
      ∧ matchesJobIdPattern (IndexV1.mkJobId "k3j9x2qa") = true :=
  ⟨c5_job_submission.1 [171, 205, 239, 1, 2, 3, 4, 5] (by decide),
   c5_job_submission.2.1 "k3j9x2qa" (by decide) (by decide)⟩

/-- C6 counterexample.  `writeBase64ToFile` of `src/index.js` performs no
size check: the payload `"data:video/mp4;base64,"` decodes to an empty
buffer and the function succeeds, writing a 0-byte local file, instead of
failing with an invalid-payload error.  (`parseBase64Video` of
`src/unnamed/part_003` does reject the same payload.) -/
theorem c6_counterexample :
    IndexV1.writeBase64ToFile "data:video/mp4;base64," = Except.ok []
      ∧ Part003.parseBase64Video "data:video/mp4;base64," = none := by
  exact ⟨rfl, rfl⟩

/-- C6 (amended).  Both base64 fetchers strip a leading `data:...;base64,`
prefix before decoding.  `parseBase64Video` (`src/unnamed/part_003`)
additionally fails — returns `null`, which its caller turns into an
invalid-payload error — whenever decoding yields an empty buffer; but
`writeBase64ToFile` (`src/index.js`, `src/unnamed/part_004`) performs no
such check and writes whatever decodes, including an empty file (see the
counterexample). -/
theorem c6_base64_handling :
    (∀ (s : String) (buf : List Nat),
        Part003.parseBase64Video s = some buf → 0 < buf.length)
    ∧ (∀ (s : String) (rest : List Char),
        hasDataPrefix (jsTrim s).data = true →
        dropThroughComma (jsTrim s).data = some rest →
          IndexV1.writeBase64ToFile s = Except.ok (bufferFromBase64 rest))
    ∧ (∀ (s : String) (rest : List Char),
        s ≠ "" →
        hasDataPrefix (jsTrim s).data = true →
        dropThroughComma (jsTrim s).data = some rest →
        0 < (bufferFromBase64 rest).length →
          Part003.parseBase64Video s = some (bufferFromBase64 rest)) := by
  refine ⟨?_, ?_, ?_⟩
  · intro s buf h
    simp only [Part003.parseBase64Video] at h
    split at h
    · simp at h
    · split at h
      · simp at h
      · split at h
        · rename_i hlen
          injection h with h
          subst h
          exact hlen
        · simp at h
  · intro s rest h1 h2
    simp only [IndexV1.writeBase64ToFile, h1, if_true, h2]
  · intro s rest hne h1 h2 hpos
    simp only [Part003.parseBase64Video, h1, if_true, h2]
    rw [if_neg (show ¬((s == "") = true) by simp [hne])]
    rw [if_pos hpos]

/-- C6 witness: a concrete data-URL payload decoding to the non-empty
buffer `[65, 66, 67]` exercises all three hypothesised parts. -/
theorem c6_witness :
    (0 : Nat) < ([65, 66, 67] : List Nat).length
      ∧ IndexV1.writeBase64ToFile "data:video/mp4;base64,QUJD"
          = Except.ok (bufferFromBase64 "QUJD".data)
      ∧ Part003.parseBase64Video "data:video/mp4;base64,QUJD"
          = some (bufferFromBase64 "QUJD".data) :=
  ⟨c6_base64_handling.1 "data:video/mp4;base64,QUJD" [65, 66, 67] (by decide),
   c6_base64_handling.2.1 "data:video/mp4;base64,QUJD" "QUJD".data (by decide) (by decide),
   c6_base64_handling.2.2 "data:video/mp4;base64,QUJD" "QUJD".data (by decide) (by decide)
     (by decide) (by decide)⟩

/-- C7 counterexample.  `uploadOutputToSupabase` of `src/index.js` keys by
`jobs/{job_id}/clip_${Date.now()}.mp4`: the key is not a deterministic
function of the job — two uploads of the same file for the same job at
different times use different keys, and the bucket afterwards holds two
objects, so the state after two uploads differs from the state after
one. -/
theorem c7_counterexample :
    IndexV2.uploadKey "job_a" 1000 ≠ IndexV2.uploadKey "job_a" 1001
      ∧ (Storage.upload (Storage.upload (Storage.empty (List Nat))
            (IndexV2.uploadKey "job_a" 1000) [1]) (IndexV2.uploadKey "job_a" 1001) [1])
          (IndexV2.uploadKey "job_a" 1000) = some [1]
      ∧ (Storage.upload (Storage.empty (List Nat)) (IndexV2.uploadKey "job_a" 1001) [1])
          (IndexV2.uploadKey "job_a" 1000) = none
      ∧ Storage.upload (Storage.upload (Storage.empty (List Nat))
            (IndexV2.uploadKey "job_a" 1000) [1]) (IndexV2.uploadKey "job_a" 1001) [1]
          ≠ Storage.upload (Storage.empty (List Nat)) (IndexV2.uploadKey "job_a" 1001) [1] := by
  refine ⟨by decide, by decide, by decide, fun h => ?_⟩
  have h1 := congrFun h (IndexV2.uploadKey "job_a" 1000)
  exact absurd h1 (by decide)

/-- C7 (amended).  Uploads use upsert semantics, so for any fixed key two
uploads of the same content equal one and a re-upload overwrites
(last-write-wins).  The key is a deterministic function of the job —
`jobs/{job_id}/clip_v1.mp4` — in `uploadFilePathToStorage`
(`src/index.js` first variant); `uploadOutputToSupabase` instead embeds
`Date.now()` in the key (shape `jobs/{job_id}/...` still holds), so its
re-uploads do not overwrite (see the counterexample). -/
theorem c7_storage_idempotent :
    (∀ (Content : Type) (st : Storage Content) (key : String) (c : Content),
        Storage.upload (Storage.upload st key c) key c = Storage.upload st key c)
    ∧ (∀ (Content : Type) (st : Storage Content) (key : String) (c1 c2 : Content),
        Storage.upload (Storage.upload st key c1) key c2 = Storage.upload st key c2)
    ∧ (∀ jobId : String, (IndexV1.uploadKey jobId).data
        = "jobs/".data ++ (jobId.data ++ "/clip_v1.mp4".data))
    ∧ (∀ (jobId : String) (now : Nat), (IndexV2.uploadKey jobId now).data
        = "jobs/".data ++ (jobId.data ++ ("/clip_" ++ toString now ++ ".mp4").data)) := by
  refine ⟨?_, ?_, ?_, ?_⟩
  · intro Content st key c
    funext k
    unfold Storage.upload
    by_cases h : k = key <;> simp [h]
  · intro Content st key c1 c2
    funext k
    unfold Storage.upload
    by_cases h : k = key <;> simp [h]
  · intro jobId
    unfold IndexV1.uploadKey
    rw [String.data_append, String.data_append, List.append_assoc]
  · intro jobId now
    unfold IndexV2.uploadKey
    simp [String.data_append, List.append_assoc]

/-- C9.  With `API_KEY` trimmed to the empty string (environment variable
unset or blank), the `src/index.js` middleware's `!API_KEY` check fires
first: every `POST /jobs` request is answered 401 and no job is created,
whatever `x-api-key` header is sent — including an empty header equal to
the configured key.  The `src/unnamed/part_001` middleware rejects
likewise (`!key` catches an empty header, `key !== ""` catches the
rest). -/
theorem c9_empty_api_key :
    IndexV1.apiKeyOf none = ""
      ∧ IndexV1.apiKeyOf (some "   ") = ""
      ∧ (∀ (header : Option String) (validBody : Bool) (jobId : String),
          IndexV1.handlePostJobs "" header validBody jobId = (401, none))
      ∧ (∀ header : Option String, IndexV1.authAllows "" header = false)
      ∧ (∀ header : Option String, Part001.authAllows "" header = false) := by
  refine ⟨rfl, by decide, fun header v j => ?_, fun header => ?_, fun header => ?_⟩
  · unfold IndexV1.handlePostJobs IndexV1.authAllows
    simp
  · unfold IndexV1.authAllows
    simp
  · unfold Part001.authAllows
    cases header with
    | none => rfl
    | some k => by_cases h : k = "" <;> simp [h]

/-- C10.  `dbSetOutputs` replaces rather than appends: after a call the
rows stored for the job are exactly the argument list numbered with
consecutive 1-based `idx` values in list order; any earlier rows of the
job are gone (last-write-wins over any sequence of calls), and calling it
twice with the same list equals calling it once. -/
theorem c10_set_outputs :
    (∀ (table : List Part004.OutputRow) (job_id : String) (outputs : List Part004.OutSpec),
        Part004.rowsFor (Part004.dbSetOutputs table job_id outputs) job_id
          = Part004.numberRows job_id 1 outputs)
    ∧ (∀ (table : List Part004.OutputRow) (job_id : String) (outputs : List Part004.OutSpec),
        (Part004.rowsFor (Part004.dbSetOutputs table job_id outputs) job_id).map
            Part004.OutputRow.idx
          = List.range' 1 outputs.length)
    ∧ (∀ (table : List Part004.OutputRow) (job_id : String)
          (outputs1 outputs2 : List Part004.OutSpec),
        Part004.dbSetOutputs (Part004.dbSetOutputs table job_id outputs1) job_id outputs2
          = Part004.dbSetOutputs table job_id outputs2)
    ∧ (∀ (table : List Part004.OutputRow) (job_id : String) (outputs : List Part004.OutSpec),
        Part004.dbSetOutputs (Part004.dbSetOutputs table job_id outputs) job_id outputs
          = Part004.dbSetOutputs table job_id outputs) := by
  refine ⟨Part004.rowsFor_dbSetOutputs, ?_, ?_, ?_⟩
  · intro table job_id outputs
    rw [Part004.rowsFor_dbSetOutputs, Part004.numberRows_idx]
  · intro table job_id outputs1 outputs2
    show (Part004.dbSetOutputs table job_id outputs1).filter (fun r => r.job_id != job_id)
          ++ Part004.numberRows job_id 1 outputs2
        = table.filter (fun r => r.job_id != job_id) ++ Part004.numberRows job_id 1 outputs2
    rw [Part004.filter_ne_dbSetOutputs]
  · intro table job_id outputs
    show (Part004.dbSetOutputs table job_id outputs).filter (fun r => r.job_id != job_id)
          ++ Part004.numberRows job_id 1 outputs
        = table.filter (fun r => r.job_id != job_id) ++ Part004.numberRows job_id 1 outputs
    rw [Part004.filter_ne_dbSetOutputs]

/-- C8.  `withSingleFlight` keeps `processingLock` true exactly while some
guarded `fn` is running: in every reachable scheduler state at most one
task is inside its `fn`, and the lock is held iff one is — so the lock is
set when `fn` starts and cleared when `fn` settles, whether it resolves
or throws (the `finally`).  Concretely, with two queued stages of which
the first throws, a fair schedule finishes both — the first as a
rejection, the second successfully — and leaves the lock free: a throwing
stage neither leaves the lock held nor blocks later jobs. -/
theorem c8_single_flight :
    (∀ (ts : List (Nat × Bool)) (s : Part004.SFSys), Part004.Reachable ts s →
        Part004.countRunning s ≤ 1
        ∧ (s.lock = true ↔ Part004.countRunning s = 1))
    ∧ (Part004.runSchedule Part004.demoTasks Part004.demoSchedule).lock = false
    ∧ (Part004.runSchedule Part004.demoTasks Part004.demoSchedule).tasks.all
        (fun t => Part004.phaseFinished t.phase) = true
    ∧ (Part004.runSchedule Part004.demoTasks Part004.demoSchedule).tasks.map
        Part004.SFTask.phase
        = [Part004.Phase.finished false, Part004.Phase.finished true] := by
  exact ⟨fun ts s h => Part004.reachable_inv ts s h, by decide, by decide, by decide⟩

/-- C8 witness: the invariant instantiated at the fresh two-task system. -/
theorem c8_witness :
    Part004.countRunning (Part004.initSys Part004.demoTasks) ≤ 1
      ∧ ((Part004.initSys Part004.demoTasks).lock = true
          ↔ Part004.countRunning (Part004.initSys Part004.demoTasks) = 1) :=
  c8_single_flight.1 Part004.demoTasks (Part004.initSys Part004.demoTasks)
    Part004.Reachable.init
